import Mathlib

/-!
Verification of the two reporting modules of the `dumbbell_lifting` repository:
`fatigue_direct_integration/feasibility_studies/fatigue_integrator.py` and
`dumbbell_optimal_control/studies/study.py`.  Python floats are modelled by exact
rationals (`ℚ`); `np.sqrt` values are expressed with `Real.sqrt` at theorem level,
since exact real square roots are not computable.  File writing is modelled by
returning the `(path, content)` pair that the code writes; raised Python
exceptions are modelled by `Except`.
-/

namespace DumbbellLifting

/-- Python exceptions raised by the two modules. -/
inductive PyErr
  | runtimeError (msg : String)
  | valueError (msg : String)
  | indexError
  deriving DecidableEq, Repr

/-- Rendering of a rational with three digits after the decimal point, as Python's
`f"{x:0.3f}"` (the exact rational is rounded half-up; binary floating-point rounding
is not modelled; no theorem depends on the digits). -/
def fmt3f (q : ℚ) : String :=
  let n : ℤ := round (q * 1000)
  let sgn := if n < 0 then "-" else ""
  let a := n.natAbs
  let frac := toString (a % 1000)
  sgn ++ toString (a / 1000) ++ "." ++
    String.mk (List.replicate (3 - frac.length) '0') ++ frac

namespace FeasibilityStudies

/-- Vectors handled by the integrator: numpy 1-D float arrays, as lists of exact
rationals. -/
abbrev Vec := List ℚ

/-- Elementwise numpy addition of two equal-length arrays (`x + y`). -/
def vadd (a b : Vec) : Vec := List.zipWith (· + ·) a b

/-- numpy scalar multiplication (`c * v`). -/
def smul (c : ℚ) (v : Vec) : Vec := v.map (fun x => c * x)

/-- The `Result` class of `fatigue_integrator.py`.  The 2-D array `y` (one row per
state component, one column per time sample) is stored as the list of its columns:
`y.getD i []` is the column written at time index `i`. -/
structure Result where
  t : List ℚ
  y : List Vec
  deriving DecidableEq, Repr

instance : Inhabited Result := ⟨⟨[], []⟩⟩

/-- The `Integrator` enumeration.  Modelled from the spec: `enums.py` is not under
`src/`; the spec names exactly the two schemes used by `perform`, "RK4 or adaptive
RK45". -/
inductive Integrator
  | RK45
  | RK4
  deriving DecidableEq, Repr

/-- One custom analysis attached to a model or to the study (`custom_analysis.name`
and `custom_analysis.fun`; `fun` is a Lean keyword, so the callable field is named
`run`).  The callable's printed value is modelled as the string it renders to. -/
structure CustomAnalysis where
  name : String
  run : Result → String

/-- A fatigue model.  Modelled from the spec: `fatigue_model.py` is not under
`src/`; the spec describes "a parametrized ODE describing muscle fatigue dynamics".
The fields are exactly the attributes `fatigue_integrator.py` reads:
`type(model).__name__` (`type_name`), `table_name`, `integrator`, `initial_guess`,
`scaling`, `apply_dynamics`, `rms_indices` and `custom_analyses`. -/
structure FatigueModel where
  type_name : String
  table_name : String
  integrator : Integrator
  initial_guess : Vec
  scaling : ℚ
  apply_dynamics : ℚ → Vec → Vec
  rms_indices : Option (List ℕ)
  custom_analyses : Option (List CustomAnalysis)

instance : Inhabited FatigueModel :=
  ⟨⟨"", "", Integrator.RK4, [], 1, fun _ x => x, none, none⟩⟩

/-- The study configuration read by `FatigueIntegrator`.  Modelled from the spec:
`study_configuration.py` is not under `src/`.  The fields are the attributes the
integrator reads: the evaluation times `t` (a numpy array of `n_points` sampling
points), `repeat` (`repeats` here; `repeat` is a Lean keyword), the configured
`fatigue_models`, the study `name`, the target function
(`study.target_function.function`) and `common_custom_analyses`. -/
structure StudyConfiguration where
  name : String
  t : List ℚ
  n_points : ℕ
  repeats : ℕ
  fatigue_models : List FatigueModel
  target_function : ℚ → ℚ
  common_custom_analyses : Option (List CustomAnalysis)

/-- `FatigueIntegrator._dynamics`. -/
def dynamics (study : StudyConfiguration) (t : ℚ) (x : Vec) (fatigue : FatigueModel) : Vec :=
  fatigue.apply_dynamics (study.target_function t / fatigue.scaling) x

/-- numpy column assignment `y[:, i] = v` into a column of height `rows`: the value
is taken as is when the lengths agree, a length-1 value is broadcast across the
column, and any other length raises
`ValueError: could not broadcast input array`. -/
def assignColumn (rows : ℕ) (v : Vec) : Except PyErr Vec :=
  if v.length = rows then .ok v
  else if v.length = 1 then .ok (List.replicate rows v.headI)
  else .error (.valueError "could not broadcast input array")

/-- The inner `next_step` closure of `FatigueIntegrator.rk4`. -/
def nextStep (study : StudyConfiguration) (fatigue : FatigueModel) (h t0 : ℚ) (x : Vec) : Vec :=
  let k1 := dynamics study t0 x fatigue
  let k2 := dynamics study (t0 + h / 2) (vadd x (smul (h / 2) k1)) fatigue
  let k3 := dynamics study (t0 + h / 2) (vadd x (smul (h / 2) k2)) fatigue
  let k4 := dynamics study (t0 + h) (vadd x (smul h k3)) fatigue
  vadd x (smul (h / 6) (vadd (vadd (vadd k1 (smul 2 k2)) (smul 2 k3)) k4))

/-- The `for i, t in enumerate(t_eval)` loop of `FatigueIntegrator.rk4`: column `i`
receives `next_step(t_eval[i], x0)` and `x0` is then read back from the column
(after any broadcast). -/
def rk4Loop (study : StudyConfiguration) (fatigue : FatigueModel) (h : ℚ) :
    List ℚ → Vec → Except PyErr (List Vec)
  | [], _ => .ok []
  | t :: ts, x0 =>
    match assignColumn 3 (nextStep study fatigue h t x0) with
    | .error e => .error e
    | .ok col =>
      match rk4Loop study fatigue h ts col with
      | .error e => .error e
      | .ok rest => .ok (col :: rest)

/-- `FatigueIntegrator.rk4`.  `h = self.study.t[1] - self.study.t[0]` (the Python
IndexError on a `t` with fewer than two entries is not modelled: the claims'
theorems assume `2 ≤ study.t.length`); the output array is allocated as
`np.ndarray((3, len(study.t)))` and is modelled by the list of the columns the loop
writes (`perform` always passes `t_eval = study.t`). -/
def rk4 (study : StudyConfiguration) (t_eval : List ℚ) (fatigue : FatigueModel) :
    Except PyErr Result :=
  let h := study.t.getD 1 0 - study.t.getD 0 0
  match rk4Loop study fatigue h t_eval fatigue.initial_guess with
  | .error e => .error e
  | .ok cols => .ok ⟨t_eval, cols⟩

/-- `FatigueIntegrator.rk45` delegates to `scipy.integrate.solve_ivp`; the external
adaptive solver is modelled by an oracle `solver` giving the columns of `out.y`.
With `t_eval` passed, scipy reports `out.t = t_eval`. -/
def rk45 (solver : FatigueModel → List Vec) (t_eval : List ℚ) (fatigue : FatigueModel) :
    Result :=
  ⟨t_eval, solver fatigue⟩

/-- The mutable attributes of `FatigueIntegrator`
(`_has_run`, `_results`, `_performing_time`). -/
structure IntegratorState where
  has_run : Bool
  results : List (List Result)
  performing_time : List (List ℚ)
  deriving DecidableEq, Repr

/-- `FatigueIntegrator.__init__`. -/
def initState : IntegratorState := ⟨false, [], []⟩

/-- The body of the inner loop of `perform`: dispatch on `fatigue.integrator`.
With `Integrator` carrying exactly the two members the code handles, the
`ValueError("Wrong selection of integrator")` branch is unreachable. -/
def integrateOne (study : StudyConfiguration) (solver : FatigueModel → List Vec)
    (fatigue : FatigueModel) : Except PyErr Result :=
  match fatigue.integrator with
  | .RK45 => .ok (rk45 solver study.t fatigue)
  | .RK4 => rk4 study study.t fatigue

/-- One repeat block of `perform`: integrate every configured model in order. -/
def performModels (study : StudyConfiguration) (solver : FatigueModel → List Vec) :
    List FatigueModel → Except PyErr (List Result)
  | [] => .ok []
  | f :: fs =>
    match integrateOne study solver f with
    | .error e => .error e
    | .ok out =>
      match performModels study solver fs with
      | .error e => .error e
      | .ok rest => .ok (out :: rest)

/-- Wall-clock durations measured with `perf_counter` are not part of a shallow
embedding; they are modelled by an oracle `elapsed r m`, the duration recorded for
model index `m` in repeat block `r`.  One duration is appended per model. -/
def timesRow (elapsed : ℕ → ℕ → ℚ) (r nmodels : ℕ) : List ℚ :=
  (List.range nmodels).map (elapsed r)

/-- The `for _ in range(self.study.repeat)` loop of `perform`, on the remaining
repeat count. -/
def performLoop (study : StudyConfiguration) (solver : FatigueModel → List Vec)
    (elapsed : ℕ → ℕ → ℚ) : ℕ → IntegratorState → Except PyErr IntegratorState
  | 0, s => .ok s
  | k + 1, s =>
    match performModels study solver study.fatigue_models with
    | .error e => .error e
    | .ok block =>
      performLoop study solver elapsed k
        { s with
          results := s.results ++ [block],
          performing_time := s.performing_time ++
            [timesRow elapsed s.results.length study.fatigue_models.length] }

/-- `FatigueIntegrator.perform`: run all repeat blocks, then set `_has_run`.
On a raised error Python would leave the partially appended blocks behind; only
the state of a completed call is modelled (no claim reads a failed call's state). -/
def perform (study : StudyConfiguration) (solver : FatigueModel → List Vec)
    (elapsed : ℕ → ℕ → ℚ) (s : IntegratorState) : Except PyErr IntegratorState :=
  match performLoop study solver elapsed study.repeats s with
  | .error e => .error e
  | .ok s1 => .ok { s1 with has_run := true }

/-- The `results` property. -/
def resultsProp (s : IntegratorState) : Except PyErr (List (List Result)) :=
  if s.has_run then .ok s.results
  else .error (.runtimeError "run() must be called before getting the results")

/-- Arithmetic mean of a list (`np.mean`). -/
def mean (l : List ℚ) : ℚ := l.sum / l.length

/-- `FatigueIntegrator.print_integration_time`.  The printed text is returned;
`np.array(self._performing_time).T` pairs model `m` with the durations
`[row[m] for row in _performing_time]`. -/
def print_integration_time (study : StudyConfiguration) (s : IntegratorState) :
    Except PyErr String :=
  if ¬ s.has_run then
    .error (.runtimeError "run() must be called before printing the results")
  else
    let tlast := study.t.getD (study.t.length - 1) 0
    let lines := (List.range study.fatigue_models.length).map (fun m =>
      let model := study.fatigue_models.getD m default
      let tcol := s.performing_time.map (fun row => row.getD m 0)
      "\t" ++ model.type_name ++ ": " ++ fmt3f (mean tcol / tlast) ++
        " seconds per integrated second for " ++ fmt3f (mean tcol) ++
        " second total (mean of " ++ toString tcol.length ++ " trials)")
    .ok (String.intercalate "\n" ("Individual integration time:" :: lines))

/-- Lines 173-176 of `print_rmse`, up to `np.sqrt`:
`e = results[0].y[rms_indices0, :] - results[1].y[rms_indices1, :]`, `se = e**2`,
`mse = np.sum(se, axis=1) / n_points`.  Selected rows are paired by position (numpy
requires the two index lists to select equally many rows, and the two trajectories
to have equally many columns; the claims only exercise that case).  The vector the
code reports is `fun k => Real.sqrt` of these entries (see the theorems). -/
def printRmseMseList (study : StudyConfiguration) (r0 r1 : Result)
    (idx0 idx1 : List ℕ) : List ℚ :=
  (idx0.zip idx1).map (fun p =>
    ((r0.y.zip r1.y).map (fun c => (c.1.getD p.1 0 - c.2.getD p.2 0) ^ 2)).sum /
      (study.n_points : ℚ))

/-- `FatigueIntegrator.print_rmse`.  The file write is modelled by returning the
`(path, content)` pair; an error return models an exception raised before anything
is written (the function reads but never mutates the integrator state).  The float
rendering of the reported vector `np.sqrt(mse)` is modelled by an oracle `fmtVec`
of the exact `mse` entries. -/
def print_rmse (fmtVec : List ℚ → String) (study : StudyConfiguration)
    (s : IntegratorState) : Except PyErr (String × String) :=
  if ¬ s.has_run then
    .error (.runtimeError "run() must be called before printing the results")
  else if study.fatigue_models.length ≠ 2 then
    .error (.runtimeError "rmse must have exactly 2 models to be called")
  else if (study.fatigue_models.filter (fun m => m.rms_indices.isSome)).length ≠ 2 then
    .error (.valueError "rms_indices were not all provided in the study configuration")
  else
    match s.results.getLast? with
    | none => .error .indexError
    | some block =>
      match block with
      | r0 :: r1 :: _ =>
        let m0 := study.fatigue_models.getD 0 default
        let m1 := study.fatigue_models.getD 1 default
        let mseList :=
          printRmseMseList study r0 r1 (m0.rms_indices.getD []) (m1.rms_indices.getD [])
        .ok ("results/" ++ study.name ++ "/rmse.txt",
          "The RMSE between " ++ m0.type_name ++ " and " ++ m1.type_name ++ " is " ++
            fmtVec mseList)
      | _ => .error .indexError

/-- The text assembled by `print_custom_analyses` from the last repeat block. -/
def customText (study : StudyConfiguration) (block : List Result) : String :=
  let per := (study.fatigue_models.zip block).map (fun p =>
    match p.1.custom_analyses with
    | none => ""
    | some cas =>
      String.join (cas.map (fun ca =>
        ca.name ++ " for " ++ p.1.type_name ++ ": " ++ ca.run p.2 ++ "\n")))
  let common :=
    match study.common_custom_analyses with
    | none => ""
    | some cas =>
      String.join (cas.map (fun ca =>
        ca.name ++ " \n" ++
          String.join ((study.fatigue_models.zip block).map (fun p =>
            "\tfor " ++ p.1.table_name ++ ": " ++ ca.run p.2 ++ "\n"))))
  String.join per ++ common

/-- `FatigueIntegrator.print_custom_analyses` (file write modelled as the
`(path, content)` pair; `self._results[-1]` raises IndexError on an empty list). -/
def print_custom_analyses (study : StudyConfiguration) (s : IntegratorState) :
    Except PyErr (String × String) :=
  if ¬ s.has_run then
    .error (.runtimeError "run() must be called before printing the results")
  else
    match s.results.getLast? with
    | none => .error .indexError
    | some block =>
      .ok ("results/" ++ study.name ++ "/custom_analysis.txt", customText study block)

/-- The classical textbook fourth-order Runge-Kutta step for the vector field `f`:
`k1 = f(t0, x)`, `k2 = f(t0 + h/2, x + h/2 k1)`, `k3 = f(t0 + h/2, x + h/2 k2)`,
`k4 = f(t0 + h, x + h k3)`, next state `x + h/6 (k1 + 2 k2 + 2 k3 + k4)`.
This is the claim's reference scheme, to be compared with `nextStep`. -/
def classicalRK4Step (f : ℚ → Vec → Vec) (h t0 : ℚ) (x : Vec) : Vec :=
  let k1 := f t0 x
  let k2 := f (t0 + h / 2) (vadd x (smul (h / 2) k1))
  let k3 := f (t0 + h / 2) (vadd x (smul (h / 2) k2))
  let k4 := f (t0 + h) (vadd x (smul h k3))
  vadd x (smul (h / 6) (vadd (vadd (vadd k1 (smul 2 k2)) (smul 2 k3)) k4))

/-- Iterating the classical step from state `x` through the listed step times:
the integrated state after `ts.length` steps. -/
def iterSteps (f : ℚ → Vec → Vec) (h : ℚ) : List ℚ → Vec → Vec
  | [], x => x
  | t :: ts, x => iterSteps f h ts (classicalRK4Step f h t x)

lemma vadd_length (a b : Vec) : (vadd a b).length = min a.length b.length :=
  List.length_zipWith ..

lemma smul_length (c : ℚ) (v : Vec) : (smul c v).length = v.length :=
  List.length_map ..

lemma assignColumn_ok_length {rows : ℕ} {v c : Vec}
    (h : assignColumn rows v = .ok c) : c.length = rows := by
  unfold assignColumn at h
  split at h
  · cases h; omega
  · split at h
    · cases h; simp
    · cases h

lemma assignColumn_of_length {rows : ℕ} {v : Vec} (h : v.length = rows) :
    assignColumn rows v = .ok v := by
  simp [assignColumn, h]

/-- The source's `next_step` is exactly the classical scheme instantiated at the
model's dynamics. -/
lemma nextStep_eq_classical (study : StudyConfiguration) (fatigue : FatigueModel)
    (h t0 : ℚ) (x : Vec) :
    nextStep study fatigue h t0 x =
      classicalRK4Step (fun t y => dynamics study t y fatigue) h t0 x := rfl

/-- For a dimension-preserving dynamics the RK4 step preserves the state length. -/
lemma nextStep_length (study : StudyConfiguration) (fatigue : FatigueModel)
    (h t0 : ℚ) (x : Vec)
    (hdyn : ∀ l y, (fatigue.apply_dynamics l y).length = y.length) :
    (nextStep study fatigue h t0 x).length = x.length := by
  simp [nextStep, dynamics, vadd_length, smul_length, hdyn]

lemma rk4Loop_ok_shape (study : StudyConfiguration) (fatigue : FatigueModel) (h : ℚ) :
    ∀ {ts : List ℚ} {x : Vec} {cols : List Vec},
      rk4Loop study fatigue h ts x = .ok cols →
      cols.length = ts.length ∧ ∀ c ∈ cols, c.length = 3 := by
  intro ts
  induction ts with
  | nil =>
    intro x cols hok
    simp only [rk4Loop] at hok
    cases hok
    simp
  | cons t ts ih =>
    intro x cols hok
    simp only [rk4Loop] at hok
    split at hok
    · cases hok
    · rename_i col hassign
      split at hok
      · cases hok
      · rename_i rest hrest
        cases hok
        obtain ⟨hlen, hall⟩ := ih hrest
        refine ⟨by simp [hlen], ?_⟩
        intro c hc
        rcases List.mem_cons.mp hc with hc | hc
        · subst hc; exact assignColumn_ok_length hassign
        · exact hall c hc

/-- For a dimension-preserving dynamics and a 3-dimensional state, the loop
succeeds and column `i` is the classical step iterated `i + 1` times. -/
lemma rk4Loop_three (study : StudyConfiguration) (fatigue : FatigueModel) (h : ℚ)
    (hdyn : ∀ l y, (fatigue.apply_dynamics l y).length = y.length) :
    ∀ (ts : List ℚ) (x : Vec), x.length = 3 →
      ∃ cols, rk4Loop study fatigue h ts x = .ok cols ∧
        cols.length = ts.length ∧
        ∀ i < ts.length, cols.getD i [] =
          iterSteps (fun t y => dynamics study t y fatigue) h (ts.take (i + 1)) x := by
  intro ts
  induction ts with
  | nil =>
    intro x _
    exact ⟨[], rfl, rfl, by intro i hi; cases hi⟩
  | cons t ts ih =>
    intro x hx
    have hstep : (nextStep study fatigue h t x).length = 3 := by
      rw [nextStep_length study fatigue h t x hdyn, hx]
    obtain ⟨cols, hok, hlen, hval⟩ := ih (nextStep study fatigue h t x) hstep
    refine ⟨nextStep study fatigue h t x :: cols, ?_, by simp [hlen], ?_⟩
    · simp only [rk4Loop, assignColumn_of_length hstep, hok]
    · intro i hi
      cases i with
      | zero =>
        simp [iterSteps, nextStep_eq_classical]
      | succ i =>
        have hi' : i < ts.length := by simpa using hi
        simpa [iterSteps, nextStep_eq_classical] using hval i hi'

/-- For a dimension-preserving dynamics whose state dimension is neither 3 nor 1,
the very first column assignment raises the numpy broadcast error. -/
lemma rk4Loop_broadcast_error (study : StudyConfiguration) (fatigue : FatigueModel)
    (h t : ℚ) (ts : List ℚ) (x : Vec)
    (hdyn : ∀ l y, (fatigue.apply_dynamics l y).length = y.length)
    (hx3 : x.length ≠ 3) (hx1 : x.length ≠ 1) :
    rk4Loop study fatigue h (t :: ts) x =
      .error (.valueError "could not broadcast input array") := by
  have hstep : (nextStep study fatigue h t x).length = x.length :=
    nextStep_length study fatigue h t x hdyn
  simp only [rk4Loop, assignColumn, hstep, hx3, hx1, if_false]

lemma performModels_ok (study : StudyConfiguration) (solver : FatigueModel → List Vec) :
    ∀ {ms : List FatigueModel} {bl : List Result},
      performModels study solver ms = .ok bl →
      bl.length = ms.length ∧
        ∀ k < ms.length,
          integrateOne study solver (ms.getD k default) = .ok (bl.getD k default) := by
  intro ms
  induction ms with
  | nil =>
    intro bl hok
    simp only [performModels] at hok
    cases hok
    exact ⟨rfl, by intro k hk; cases hk⟩
  | cons f fs ih =>
    intro bl hok
    simp only [performModels] at hok
    split at hok
    · cases hok
    · rename_i out hone
      split at hok
      · cases hok
      · rename_i rest hrest
        cases hok
        obtain ⟨hlen, hval⟩ := ih hrest
        refine ⟨by simp [hlen], ?_⟩
        intro k hk
        cases k with
        | zero => simpa using hone
        | succ k => simpa using hval k (by simpa using hk)

lemma performLoop_ok (study : StudyConfiguration) (solver : FatigueModel → List Vec)
    (elapsed : ℕ → ℕ → ℚ) {B : List Result}
    (hB : performModels study solver study.fatigue_models = .ok B) :
    ∀ (k : ℕ) (s : IntegratorState),
      performLoop study solver elapsed k s =
        .ok ⟨s.has_run, s.results ++ List.replicate k B,
          s.performing_time ++ (List.range k).map (fun j =>
            timesRow elapsed (s.results.length + j) study.fatigue_models.length)⟩ := by
  intro k
  induction k with
  | zero => intro s; simp [performLoop]
  | succ k ih =>
    intro s
    simp only [performLoop, hB]
    rw [ih]
    simp only [Except.ok.injEq, IntegratorState.mk.injEq, List.length_append,
      List.length_singleton]
    refine ⟨trivial, ?_, ?_⟩
    · simp [List.append_assoc, List.replicate_succ]
    · rw [List.append_assoc]
      congr 1
      rw [List.range_succ_eq_map]
      simp only [List.singleton_append, List.map_cons, List.map_map, Nat.add_zero]
      congr 1
      apply List.map_congr_left
      intro j _
      simp only [Function.comp_apply]
      congr 1
      omega

/-- Closed form of a successful `perform`: `repeat` blocks, each the per-model
result list `B`, plus one duration row per block, and `_has_run` set. -/
lemma perform_ok (study : StudyConfiguration) (solver : FatigueModel → List Vec)
    (elapsed : ℕ → ℕ → ℚ) {B : List Result}
    (hB : performModels study solver study.fatigue_models = .ok B)
    (s : IntegratorState) :
    perform study solver elapsed s =
      .ok ⟨true, s.results ++ List.replicate study.repeats B,
        s.performing_time ++ (List.range study.repeats).map (fun j =>
          timesRow elapsed (s.results.length + j) study.fatigue_models.length)⟩ := by
  simp [perform, performLoop_ok study solver elapsed hB]

/-- Any successful integration of one model yields a result whose time axis is
`study.t` and whose trajectory has one column per entry of `study.t` (for RK45
this is scipy's contract with `t_eval`, stated as the hypothesis on the oracle). -/
lemma integrateOne_shape (study : StudyConfiguration) (solver : FatigueModel → List Vec)
    (fatigue : FatigueModel) {r : Result}
    (hsol : ∀ f, (solver f).length = study.t.length)
    (hok : integrateOne study solver fatigue = .ok r) :
    r.t = study.t ∧ r.y.length = study.t.length := by
  unfold integrateOne at hok
  split at hok
  · cases hok
    exact ⟨rfl, hsol fatigue⟩
  · simp only [rk4] at hok
    split at hok
    · cases hok
    · rename_i cols hloop
      cases hok
      exact ⟨rfl, (rk4Loop_ok_shape study fatigue _ hloop).1⟩

end FeasibilityStudies

namespace OptimalControl

/-- The `DataType` enumeration of `ocp.py`.  Modelled from the spec: `ocp.py` is
not under `src/`; the members are the solution attributes the spec's "plots state
trajectories" wrapper reads (`states` / `controls`). -/
inductive DataType
  | STATES
  | CONTROLS
  deriving DecidableEq, Repr

/-- A numpy 2-D float array: a shape plus an entry function (entries are exact
rationals). -/
structure NpMat where
  rows : ℕ
  cols : ℕ
  entry : ℕ → ℕ → ℚ

instance : Inhabited NpMat := ⟨⟨0, 0, fun _ _ => 0⟩⟩

/-- A solver solution.  Modelled from the spec: `Solution` belongs to the external
`bioptim` library ("the optimal-control solving is delegated entirely to an
external solver library"); the fields are the attributes `study.py` reads.
`data dt key` models `getattr(sol, data_type.value)[key]`. -/
structure Solution where
  iterations : ℕ
  real_time_to_optimize : ℚ
  data : DataType → String → NpMat

instance : Inhabited Solution := ⟨⟨0, 0, fun _ _ => default⟩⟩

/-- One pre-built study condition (an element of `conditions.value.studies`).
Modelled from the spec: the condition classes are not under `src/`; the fields are
the attributes `study.py` reads, with `perform` the solution returned by the
condition's external `perform()` solve, `solver_max_iter` = `study.solver.max_iter`,
and the `nlp[0]` counts used for the table's variable/constraint column. -/
structure OcpStudy where
  name : String
  save_name : String
  perform : Solution
  solver_max_iter : ℕ
  nlp_ns : ℕ
  nlp_controls_shape : ℕ
  nlp_states_shape : ℕ
  nlp_g_bounds_shapes : List ℕ

instance : Inhabited OcpStudy := ⟨⟨"", "", default, 0, 0, 0, 0, []⟩⟩

/-- `n_var = nlp.ns * nlp.controls.shape + (nlp.ns + 1) * nlp.states.shape`. -/
def n_var (s : OcpStudy) : ℕ :=
  s.nlp_ns * s.nlp_controls_shape + (s.nlp_ns + 1) * s.nlp_states_shape

/-- `n_constraints = nlp.ns * nlp.states.shape + sum(g.bounds.shape[0] for g in nlp.g)`. -/
def n_constraints (s : OcpStudy) : ℕ :=
  s.nlp_ns * s.nlp_states_shape + s.nlp_g_bounds_shapes.sum

/-- The study configuration of `dumbbell_optimal_control` (`conditions.value`).
Modelled from the spec: the configuration classes are not under `src/`; the fields
are the attributes `study.py` reads. -/
structure StudyConfiguration where
  studies : List OcpStudy
  rmse_index : List ℕ

/-- The `Study` object: constructor arguments plus mutable state
(`_has_run`, `_plots_are_prepared`, `solution`). -/
structure Study where
  name : String
  has_run : Bool
  plots_are_prepared : Bool
  conditions : StudyConfiguration
  solution : List Solution

/-- `Study.__init__` (a fresh study for the given conditions). -/
def initStudy (name : String) (conditions : StudyConfiguration) : Study :=
  ⟨name, false, false, conditions, []⟩

/-- `Study.run`: append `condition.perform()` for every condition, then set
`_has_run`. -/
def run (s : Study) : Study :=
  { s with
    solution := s.solution ++ s.conditions.studies.map (fun c => c.perform),
    has_run := true }

/-- `Study.print_results`.  The printed text is returned.  Note: unlike the other
result readers, `print_results` has no `_has_run` guard in the source, and never
raises (before `run()` the zips are empty and only the three headers print).
The per-iteration time is `real_time_to_optimize / iterations` (a Python
ZeroDivisionError at `iterations = 0` is not modelled; `ℚ` division is total). -/
def print_results (s : Study) : Except PyErr String :=
  let z := s.conditions.studies.zip s.solution
  .ok ("Number of iterations\n" ++
    String.join (z.map (fun p =>
      "\t" ++ p.1.name ++ " = " ++ toString p.2.iterations ++ "\n")) ++
    "Total time to optimize\n" ++
    String.join (z.map (fun p =>
      "\t" ++ p.1.name ++ " = " ++ fmt3f p.2.real_time_to_optimize ++ " second\n")) ++
    "Mean time per iteration to optimize\n" ++
    String.join (z.map (fun p =>
      "\t" ++ p.1.name ++ " = " ++
        fmt3f (p.2.real_time_to_optimize / (p.2.iterations : ℚ)) ++ " second\n")))

/-- `Study._rmse` up to the final `np.sqrt` (lines `e = data_ref - data`,
`se = e**2`, `mse = np.sum(se, axis=1) / data_ref.shape[1]`): entry `i` is the mean
squared error of row `i`, with the reference's column count as divisor.  The vector
`_rmse` returns is `fun i => Real.sqrt` of these entries (stated at theorem level;
numpy would require broadcast-compatible shapes for `data_ref - data`, and the
claims only concern equal shapes). -/
def rmseMse (s : Study) (dt : DataType) (key : String) (idx_ref : ℕ)
    (sol : Solution) : ℕ → ℚ :=
  let data_ref := ((s.solution.getD idx_ref default).data dt key)
  let data := sol.data dt key
  fun i =>
    (∑ j in Finset.range data_ref.cols, (data_ref.entry i j - data.entry i j) ^ 2) /
      (data_ref.cols : ℚ)

/-- The RMSE cell of one table row:
`rmse = np.sum(self._rmse(DataType.STATES, "q", rmse_index, sol))`, rendered as
`"---"` when `rmse == 0` and in rewritten scientific notation otherwise.  The
reference's row count is the length of the summed vector.  `rmse` is the real
number `∑ i, Real.sqrt (mse i)`; since each `mse i` is nonnegative it is zero
exactly when every `mse i` is zero, which is the decidable test used here (see
`sum_sqrt_eq_zero_iff`).  The scientific rendering of the float `rmse`
(`f"{rmse:0.3e}"` followed by the `replace` chain that rewrites the exponent into
LaTeX) is external float formatting, modelled by an oracle `sciCell` of the exact
`mse` entries that determine the value. -/
def rmseCell (sciCell : List ℚ → String) (s : Study) (idx_ref : ℕ)
    (sol : Solution) : String :=
  let nrows := ((s.solution.getD idx_ref default).data DataType.STATES "q").rows
  let mseList := (List.range nrows).map (rmseMse s DataType.STATES "q" idx_ref sol)
  if ∀ q ∈ mseList, q = 0 then "---" else sciCell mseList

/-- The condition name of one table row: suffixed with `*` exactly on
`sol.iterations == study.solver.max_iter`. -/
def starredName (study : OcpStudy) (sol : Solution) : String :=
  if sol.iterations = study.solver_max_iter then study.name ++ "*" else study.name

/-- One data row of the LaTeX table (lines 128-135 of `study.py`). -/
def latexRow (sciCell : List ℚ → String) (s : Study) (study : OcpStudy)
    (sol : Solution) (ri : ℕ) : String :=
  "   " ++ starredName study sol ++
    " & " ++ toString (n_var study) ++ "/" ++ toString (n_constraints study) ++
    " & " ++ toString sol.iterations ++
    " & " ++ fmt3f sol.real_time_to_optimize ++
    " & " ++ fmt3f (sol.real_time_to_optimize / (sol.iterations : ℚ)) ++
    " & " ++ rmseCell sciCell s ri sol ++ " \\\\\n"

/-- Python's `zip` over three lists (stops at the shortest). -/
def zip3 {α β γ : Type} : List α → List β → List γ → List (α × β × γ)
  | a :: as, b :: bs, c :: cs => (a, b, c) :: zip3 as bs cs
  | _, _, _ => []

/-- The row strings produced by the `for study, sol, rmse_index in zip(...)` loop,
in loop order (the source appends each row to the accumulating table string). -/
def tableRows (sciCell : List ℚ → String) (s : Study)
    (triples : List (OcpStudy × Solution × ℕ)) : List String :=
  triples.map (fun tr => latexRow sciCell s tr.1 tr.2.1 tr.2.2)

/-- The `all_has_converged` flag after the loop: it starts `True` and is cleared by
every row with `sol.iterations == study.solver.max_iter`. -/
def allHasConverged (triples : List (OcpStudy × Solution × ℕ)) : Bool :=
  triples.all (fun tr => decide (tr.2.1.iterations ≠ tr.1.solver_max_iter))

/-- The constant document preamble and table header of `generate_latex_table`
(lines 47-106 of `study.py`). -/
def latexHeader : String :=
  "\\documentclass\x7barticle\x7d\n" ++
  "\n" ++
  "\\usepackage\x7bamsmath\x7d\n" ++
  "\\usepackage\x7bamssymb\x7d\n" ++
  "\\usepackage[table]\x7bxcolor\x7d\n" ++
  "\\usepackage\x7bthreeparttable\x7d\n" ++
  "\\usepackage\x7bmakecell\x7d\n" ++
  "\\definecolor\x7blightgray\x7d\x7bgray\x7d\x7b0.91\x7d\n" ++
  "\n\n" ++
  "% Aliases\n" ++
  "\\newcommand\x7b\\rmse\x7d\x7bRMSE\x7d\n" ++
  "\\newcommand\x7b\\ocp\x7d\x7bOCP\x7d\n" ++
  "\\newcommand\x7b\\controls\x7d\x7b\\mathbf\x7bu\x7d\x7d\n" ++
  "\\newcommand\x7b\\states\x7d\x7b\\mathbf\x7bx\x7d\x7d\n" ++
  "\\newcommand\x7b\\statesDot\x7d\x7b\\mathbf\x7b\\dot\x7bx\x7d\x7d\x7d\n" ++
  "\\newcommand\x7b\\q\x7d\x7b\\mathbf\x7bq\x7d\x7d\n" ++
  "\\newcommand\x7b\\qdot\x7d\x7b\\mathbf\x7b\\dot\x7bq\x7d\x7d\x7d\n" ++
  "\\newcommand\x7b\\qddot\x7d\x7b\\mathbf\x7b\\ddot\x7bq\x7d\x7d\x7d\n" ++
  "\\newcommand\x7b\\f\x7d\x7b\\mathbf\x7bf\x7d\x7d\n" ++
  "\\newcommand\x7b\\taupm\x7d\x7b\\tau^\x7b\\pm\x7d\x7d\n" ++
  "\\newcommand\x7b\\tauns\x7d\x7b\\tau^\x7b\\times\x7d\x7d\n" ++
  "\n" ++
  "\\newcommand\x7b\\condition\x7d\x7bC/\x7d\n" ++
  "\\newcommand\x7b\\noFatigue\x7d\x7b\\varnothing\x7d\n" ++
  "\\newcommand\x7b\\qcc\x7d\x7b4\\textsubscript\x7bCC\x7d\x7d\n" ++
  "\\newcommand\x7b\\pe\x7d\x7bP\\textsubscript\x7bE\x7d\x7d\n" ++
  "\\newcommand\x7b\\condTau\x7d\x7b\x7b\\condition\x7d\x7b\\tau\x7d\x7b\x7d\x7d\n" ++
  "\\newcommand\x7b\\condTauNf\x7d\x7b\x7b\\condition\x7d\x7b\\tau\x7d\x7b\\noFatigue\x7d\x7d\n" ++
  "\\newcommand\x7b\\condTauQcc\x7d\x7b\x7b\\condition\x7d\x7b\\tau\x7d\x7b\\qcc\x7d\x7d\n" ++
  "\\newcommand\x7b\\condTauPe\x7d\x7b\x7b\\condition\x7d\x7b\\tau\x7d\x7b\\pe\x7d\x7d\n" ++
  "\\newcommand\x7b\\condTaupm\x7d\x7b\x7b\\condition\x7d\x7b\\taupm\x7d\x7b\x7d\x7d\n" ++
  "\\newcommand\x7b\\condTaupmQcc\x7d\x7b\x7b\\condition\x7d\x7b\\taupm\x7d\x7b\\qcc\x7d\x7d\n" ++
  "\\newcommand\x7b\\condTaupmPe\x7d\x7b\x7b\\condition\x7d\x7b\\taupm\x7d\x7b\\pe\x7d\x7d\n" ++
  "\\newcommand\x7b\\condTauns\x7d\x7b\x7b\\condition\x7d\x7b\\tauns\x7d\x7b\x7d\x7d\n" ++
  "\\newcommand\x7b\\condTaunsQcc\x7d\x7b\x7b\\condition\x7d\x7b\\tauns\x7d\x7b\\qcc\x7d\x7d\n" ++
  "\\newcommand\x7b\\condTaunsPe\x7d\x7b\x7b\\condition\x7d\x7b\\tauns\x7d\x7b\\pe\x7d\x7d\n" ++
  "\\newcommand\x7b\\condAlpha\x7d\x7b\x7b\\condition\x7d\x7b\\alpha\x7d\x7b\x7d\x7d\n" ++
  "\\newcommand\x7b\\condAlphaNf\x7d\x7b\x7b\\condition\x7d\x7b\\alpha\x7d\x7b\\noFatigue\x7d\x7d\n" ++
  "\\newcommand\x7b\\condAlphaQcc\x7d\x7b\x7b\\condition\x7d\x7b\\alpha\x7d\x7b\\qcc\x7d\x7d\n" ++
  "\\newcommand\x7b\\condAlphaPe\x7d\x7b\x7b\\condition\x7d\x7b\\alpha\x7d\x7b\\pe\x7d\x7d\n" ++
  "\n\n" ++
  "\\begin\x7bdocument\x7d\n" ++
  "\n" ++
  "\\begin\x7btable\x7d[!ht]\n" ++
  " \\rowcolors\x7b1\x7d\x7b\x7d\x7blightgray\x7d\n" ++
  " \\caption\x7bComparaison des métriques d\x27efficacité et de comportement entre les modèles de fatigue appliqués sur une dynamique musculaire ou articulaire lors de la résolution d\x27un \\ocp\x7b\x7d\x7d\n" ++
  " \\label\x7btable:faisabilite\x7d\n" ++
  " \\begin\x7bthreeparttable\x7d\n" ++
  "  \\begin\x7btabular\x7d\x7blccccc\x7d\n" ++
  "   \\hline\n" ++
  "   \\bfseries Condition & \\bfseries\\makecell[c]\x7bNombre de\\\\variables/\\\\contraintes\x7d & \\bfseries\\makecell[c]\x7bNombre\\\\d\x27itérations\x7d & \\bfseries\\makecell[c]\x7bTemps\\\\de calcul\\\\(s)\x7d & \\bfseries\\makecell[c]\x7bTemps moyen\\\\par itération\\\\(s/iteration)\x7d & \\bfseries\\makecell[c]\x7b$\\sum\\text\x7b\\rmse\x7b\x7d\x7d$\\\\pour $\\q$\\\\(rad)\x7d\\\\ \n" ++
  "   \\hline\n"

/-- The tablenotes block emitted when some condition did not converge. -/
def tablenotesBlock : String :=
  "  \\begin\x7btablenotes\x7d\n" ++
  "   \\item * Condition n\x27ayant pas convergé (maximum d\x27itérations atteint)\n" ++
  "  \\end\x7btablenotes\x7d\n"

/-- The part of the table after the data rows (lines 136-145 of `study.py`): the
closing rules, the tablenotes block exactly when `all_has_converged` is false, and
the document end. -/
def latexFooter (all_has_converged : Bool) : String :=
  "   \\hline\n" ++ "  \\end\x7btabular\x7d\n" ++
  (if all_has_converged then "" else tablenotesBlock) ++
  " \\end\x7bthreeparttable\x7d\n" ++
  "\\end\x7btable\x7d\n\n" ++
  "\\end\x7bdocument\x7d\n"

/-- `Study.generate_latex_table`: guard, then assemble the document and write it to
`results/<name>/results.tex` (the write is modelled by returning the
`(path, content)` pair).  The source's single loop both appends the row strings
and maintains `all_has_converged`; it is modelled by `tableRows` (the rows, in loop
order) and `allHasConverged`. -/
def generate_latex_table (sciCell : List ℚ → String) (s : Study) :
    Except PyErr (String × String) :=
  if ¬ s.has_run then
    .error (.runtimeError "run() must be called before generating the latex table")
  else
    let triples := zip3 s.conditions.studies s.solution s.conditions.rmse_index
    .ok ("results/" ++ s.name ++ "/results.tex",
      latexHeader ++ String.join (tableRows sciCell s triples) ++
        latexFooter (allHasConverged triples))

/-- `Study.prepare_plot_data` up to the matplotlib calls (figure construction,
styling and saving are external side effects; only the guards and the
`_plots_are_prepared` update are modelled).  `self.solution[0]` raises IndexError
on an empty solution list; the second guard raises when some solution's row count
under the plotted key differs from the first's. -/
def prepare_plot_data (s : Study) (dt : DataType) (key : String) :
    Except PyErr Study :=
  if ¬ s.has_run then
    .error (.runtimeError "run() must be called before plotting the results")
  else
    match s.solution with
    | [] => .error .indexError
    | sol0 :: _ =>
      let n_plots := (sol0.data dt key).rows
      if s.solution.all (fun sol => decide ((sol.data dt key).rows = n_plots)) then
        .ok { s with plots_are_prepared := true }
      else
        .error (.runtimeError "All the models must have the same number of dof to be plotted")

lemma self_ne_append_star (s : String) : s ≠ s ++ "*" := by
  intro h
  have hlen := congrArg String.length h
  rw [String.length_append] at hlen
  simp only [Nat.self_eq_add_right] at hlen
  exact absurd hlen (by decide)

/-- The starred condition name equals `name ++ "*"` exactly when the iteration
count reached the solver's `max_iter`. -/
lemma starredName_eq_append_iff (study : OcpStudy) (sol : Solution) :
    starredName study sol = study.name ++ "*" ↔
      sol.iterations = study.solver_max_iter := by
  unfold starredName
  split
  · rename_i heq
    simp [heq]
  · rename_i hne
    simp only [iff_false_intro hne, iff_false]
    exact self_ne_append_star study.name

/-- The starred condition name equals the bare `name` exactly when the iteration
count did not reach the solver's `max_iter`. -/
lemma starredName_eq_name_iff (study : OcpStudy) (sol : Solution) :
    starredName study sol = study.name ↔
      sol.iterations ≠ study.solver_max_iter := by
  unfold starredName
  split
  · rename_i heq
    constructor
    · intro h
      exact absurd h.symm (self_ne_append_star study.name)
    · intro hne
      exact absurd heq hne
  · rename_i hne
    simp [hne]

/-- A finite sum of square roots of nonnegative rationals vanishes exactly when
every radicand vanishes. -/
lemma sum_sqrt_eq_zero_iff (n : ℕ) (g : ℕ → ℚ) (hg : ∀ i, 0 ≤ g i) :
    (∑ i in Finset.range n, Real.sqrt ((g i : ℝ))) = 0 ↔ ∀ i < n, g i = 0 := by
  rw [Finset.sum_eq_zero_iff_of_nonneg (fun i _ => Real.sqrt_nonneg _)]
  constructor
  · intro h i hi
    have hz := h i (Finset.mem_range.mpr hi)
    have hx : ((g i : ℝ)) = 0 :=
      (Real.sqrt_eq_zero (by exact_mod_cast hg i)).mp hz
    exact_mod_cast hx
  · intro h i hi
    rw [h i (Finset.mem_range.mp hi)]
    simp

lemma rmseMse_nonneg (s : Study) (dt : DataType) (key : String) (idx_ref : ℕ)
    (sol : Solution) (i : ℕ) : 0 ≤ rmseMse s dt key idx_ref sol i := by
  unfold rmseMse
  positivity

/-- With the same solution as reference and compared data, every mean squared
error entry vanishes. -/
lemma rmseMse_self (s : Study) (dt : DataType) (key : String) (idx_ref : ℕ)
    (sol : Solution) (hsol : s.solution.getD idx_ref default = sol) (i : ℕ) :
    rmseMse s dt key idx_ref sol i = 0 := by
  unfold rmseMse
  rw [hsol]
  simp

/-- The RMSE cell renders `"---"` exactly when the summed RMSE vector
`np.sum(np.sqrt(mse))` is zero (given that the external scientific formatter
never renders the three-dash string). -/
lemma rmseCell_eq_dash_iff (sciCell : List ℚ → String) (s : Study) (idx_ref : ℕ)
    (sol : Solution) (hfmt : ∀ v, sciCell v ≠ "---") :
    (rmseCell sciCell s idx_ref sol = "---") ↔
      (∑ i in Finset.range ((s.solution.getD idx_ref default).data DataType.STATES "q").rows,
        Real.sqrt ((rmseMse s DataType.STATES "q" idx_ref sol i : ℝ))) = 0 := by
  rw [sum_sqrt_eq_zero_iff _ _ (fun i => rmseMse_nonneg s DataType.STATES "q" idx_ref sol i)]
  simp only [rmseCell]
  split
  · rename_i hall
    simp only [true_iff]
    intro i hi
    exact hall _ (List.mem_map.mpr ⟨i, List.mem_range.mpr hi, rfl⟩)
  · rename_i hall
    constructor
    · intro h
      exact absurd h (hfmt _)
    · intro h
      exfalso
      apply hall
      intro q hq
      obtain ⟨i, hi, rfl⟩ := List.mem_map.mp hq
      exact h i (List.mem_range.mp hi)

lemma zip3_length {α β γ : Type} (as : List α) :
    ∀ (bs : List β) (cs : List γ),
      (zip3 as bs cs).length = min as.length (min bs.length cs.length) := by
  induction as with
  | nil => intro bs cs; cases bs <;> cases cs <;> simp [zip3]
  | cons a as ih =>
    intro bs cs
    cases bs with
    | nil => simp [zip3]
    | cons b bs =>
      cases cs with
      | nil => simp [zip3]
      | cons c cs =>
        simp only [zip3, List.length_cons, ih]
        omega

lemma zip3_getD {α β γ : Type} (dA : α) (dB : β) (dC : γ) (as : List α) :
    ∀ (bs : List β) (cs : List γ) (i : ℕ), i < (zip3 as bs cs).length →
      (zip3 as bs cs).getD i (dA, dB, dC) = (as.getD i dA, bs.getD i dB, cs.getD i dC) := by
  induction as with
  | nil => intro bs cs i hi; cases bs <;> cases cs <;> simp [zip3] at hi
  | cons a as ih =>
    intro bs cs i hi
    cases bs with
    | nil => simp [zip3] at hi
    | cons b bs =>
      cases cs with
      | nil => simp [zip3] at hi
      | cons c cs =>
        cases i with
        | zero => simp [zip3]
        | succ i =>
          simp only [zip3, List.length_cons] at hi
          simpa [zip3] using ih bs cs i (by omega)

/-- The `all_has_converged` flag is cleared exactly when some zipped row has
`sol.iterations == study.solver.max_iter`. -/
lemma allHasConverged_false_iff (triples : List (OcpStudy × Solution × ℕ)) :
    allHasConverged triples = false ↔
      ∃ tr ∈ triples, tr.2.1.iterations = tr.1.solver_max_iter := by
  unfold allHasConverged
  rw [← Bool.not_eq_true, List.all_eq_true]
  push_neg
  constructor
  · rintro ⟨tr, htr, hne⟩
    exact ⟨tr, htr, by simpa using hne⟩
  · rintro ⟨tr, htr, heq⟩
    exact ⟨tr, htr, by simpa using heq⟩

end OptimalControl

lemma getD_map_of_lt {α β : Type} (f : α → β) (l : List α) (d₁ : β) (d₂ : α) (i : ℕ)
    (hi : i < l.length) : (l.map f).getD i d₁ = f (l.getD i d₂) := by
  rw [List.getD_eq_getElem _ _ (by simpa using hi), List.getD_eq_getElem _ _ hi]
  simp

lemma getD_replicate_of_lt {α : Type} (n i : ℕ) (hi : i < n) (b d : α) :
    (List.replicate n b).getD i d = b := by
  rw [List.getD_eq_getElem _ _ (by simpa using hi)]
  simp

lemma getLast?_replicate_of_pos {α : Type} (n : ℕ) (hn : 1 ≤ n) (b : α) :
    (List.replicate n b).getLast? = some b := by
  induction n with
  | zero => omega
  | succ n ih =>
    cases n with
    | zero => rfl
    | succ m =>
      rw [List.replicate_succ, List.replicate_succ, List.getLast?_cons_cons,
        ← List.replicate_succ, ih (by omega)]

/-!
Concrete instances used by the counterexamples and witnesses below.  All demo
dynamics are built from constants so that the exact rational arithmetic of the
integrator evaluates by `simp`/`norm_num`.
-/

namespace Demo

open FeasibilityStudies

/-- A 3-dimensional RK4 model with zero dynamics. -/
def zeroModelA : FatigueModel :=
  ⟨"ZeroA", "zeroA", Integrator.RK4, [0, 0, 0], 1, fun _ x => x.map (fun _ => 0),
    some [0], none⟩

/-- A second 3-dimensional RK4 model with zero dynamics. -/
def zeroModelB : FatigueModel :=
  ⟨"ZeroB", "zeroB", Integrator.RK4, [0, 0, 0], 1, fun _ x => x.map (fun _ => 0),
    some [0], none⟩

/-- Two-model feasibility study on three evaluation times. -/
def studyA : StudyConfiguration :=
  ⟨"demoA", [0, 1, 2], 3, 1, [zeroModelA, zeroModelB], fun _ => 0, none⟩

/-- One-model feasibility study with two repeats. -/
def studyB : StudyConfiguration :=
  ⟨"demoB", [0, 1, 2], 3, 2, [zeroModelA], fun _ => 0, none⟩

/-- One-model feasibility study (for the `print_rmse` model-count guard). -/
def studyOne : StudyConfiguration :=
  ⟨"demoOne", [0, 1, 2], 3, 1, [zeroModelA], fun _ => 0, none⟩

/-- A 3-dimensional RK4 model with zero dynamics and no `rms_indices`. -/
def zeroModelNoIdx : FatigueModel :=
  ⟨"ZeroN", "zeroN", Integrator.RK4, [0, 0, 0], 1, fun _ x => x.map (fun _ => 0),
    none, none⟩

/-- Two-model study in which no model provides `rms_indices`. -/
def studyNoIdx : StudyConfiguration :=
  ⟨"demoNoIdx", [0, 1, 2], 3, 1, [zeroModelNoIdx, zeroModelNoIdx], fun _ => 0, none⟩

/-- Oracle for the external RK45 solver: three columns, matching the demo time
grids of length 3. -/
def solver3 : FatigueModel → List Vec := fun _ => [[0, 0, 0], [0, 0, 0], [0, 0, 0]]

/-- Timing oracle. -/
def elapsed0 : ℕ → ℕ → ℚ := fun _ _ => 0

/-- The per-model result block of the zero-dynamics demo studies. -/
def blockA : List Result :=
  [⟨[0, 1, 2], [[0, 0, 0], [0, 0, 0], [0, 0, 0]]⟩,
   ⟨[0, 1, 2], [[0, 0, 0], [0, 0, 0], [0, 0, 0]]⟩]

/-- The one-model result block of `studyB`. -/
def blockB : List Result :=
  [⟨[0, 1, 2], [[0, 0, 0], [0, 0, 0], [0, 0, 0]]⟩]

/-- An integrator state with `_has_run` already set (guard tests). -/
def ranState : IntegratorState := ⟨true, [], []⟩

/-- Oracle for the float rendering of the RMSE vector in `print_rmse`. -/
def fmtVec0 : List ℚ → String := fun _ => "[0. 0.]"

/-- A 3-dimensional RK4 model whose dynamics is constantly `(1, 1, 1)`. -/
def oneModel : FatigueModel :=
  ⟨"OneModel", "one", Integrator.RK4, [0, 0, 0], 1, fun _ x => x.map (fun _ => 1),
    none, none⟩

/-- Study integrating `oneModel` over the uniform grid `0, 1, 2` (step 1). -/
def ceStudy : StudyConfiguration :=
  ⟨"ce", [0, 1, 2], 3, 1, [oneModel], fun _ => 0, none⟩

/-- A 1-dimensional RK4 model with zero dynamics. -/
def dim1Model : FatigueModel :=
  ⟨"Dim1", "d1", Integrator.RK4, [0], 1, fun _ x => x.map (fun _ => 0), none, none⟩

/-- A 2-dimensional RK4 model with zero dynamics. -/
def dim2Model : FatigueModel :=
  ⟨"Dim2", "d2", Integrator.RK4, [0, 0], 1, fun _ x => x.map (fun _ => 0), none, none⟩

/-- Study on the two evaluation times `0, 1` (step 1). -/
def c10Study : StudyConfiguration :=
  ⟨"c10", [0, 1], 2, 1, [dim1Model], fun _ => 0, none⟩

end Demo

namespace DemoOC

open OptimalControl

/-- A constant data matrix. -/
def matZero : NpMat := ⟨1, 2, fun _ _ => 0⟩

/-- A data matrix with entries `i + j`. -/
def matIJ : NpMat := ⟨1, 2, fun i j => (i : ℚ) + (j : ℚ)⟩

/-- A solver solution whose every data array is `matZero`. -/
def solZero : Solution := ⟨5, 2, fun _ _ => matZero⟩

/-- A solver solution whose every data array is `matIJ`. -/
def solIJ : Solution := ⟨10, 3, fun _ _ => matIJ⟩

/-- A single pre-built condition whose external solve returns `solZero`; its
solver's `max_iter` is 10. -/
def ocpA : OcpStudy := ⟨"condA", "saveA", solZero, 10, 2, 3, 4, [1, 2]⟩

/-- A configuration with one condition, whose `rmse_index` points at itself. -/
def cfgA : StudyConfiguration := ⟨[ocpA], [0]⟩

/-- The fresh study for `cfgA`. -/
def freshA : Study := initStudy "demo" cfgA

/-- The study after one `run()`. -/
def ranA : Study := run freshA

/-- Oracle for the scientific rendering of a nonzero RMSE cell. -/
def sci0 : List ℚ → String := fun _ => "1.000"

end DemoOC

/-!  Claim theorems. -/

/-- **C1** (counterexample).  The claim states that the value `rk4` reports at each
evaluation time is the integrated state at that time.  On the uniform grid
`t = [0, 1, 2]` (step 1) with the 3-dimensional model `oneModel` (constant
dynamics `(1, 1, 1)`, initial guess `(0, 0, 0)`), the integrated state at the
evaluation time `t[0] = 0` is the initial guess itself (`iterSteps` over zero
steps), namely `[0, 0, 0]`; but the code reports `[1, 1, 1]` there — the state one
RK4 step ahead.  -/
theorem C1_counterexample :
    FeasibilityStudies.rk4 Demo.ceStudy Demo.ceStudy.t Demo.oneModel =
      Except.ok ⟨[0, 1, 2], [[1, 1, 1], [2, 2, 2], [3, 3, 3]]⟩ ∧
    FeasibilityStudies.iterSteps
      (fun t y => FeasibilityStudies.dynamics Demo.ceStudy t y Demo.oneModel) 1
      (Demo.ceStudy.t.take 0) Demo.oneModel.initial_guess = [0, 0, 0] ∧
    ([1, 1, 1] : FeasibilityStudies.Vec) ≠ [0, 0, 0] := by
  refine ⟨?_, by simp [FeasibilityStudies.iterSteps, Demo.oneModel], by decide⟩
  norm_num [FeasibilityStudies.rk4, FeasibilityStudies.rk4Loop,
    FeasibilityStudies.nextStep, FeasibilityStudies.dynamics,
    FeasibilityStudies.assignColumn, FeasibilityStudies.vadd,
    FeasibilityStudies.smul, Demo.ceStudy, Demo.oneModel, List.replicate]

open FeasibilityStudies in
/-- **C1** (amended).  For every study configuration and every RK4 fatigue model
with dimension-preserving dynamics and 3-dimensional initial guess,
`FatigueIntegrator.rk4` steps with exactly the classical textbook fourth-order
Runge-Kutta step of size `h = t[1] - t[0]` and returns a `Result` whose `t` equals
the evaluation times; but the trajectory is shifted one step ahead of the claim:
the value reported at the `i`-th evaluation time is the classical step iterated
`i + 1` times from the model's initial guess (the integrated state at
`t[i] + h`, not at `t[i]`). -/
theorem C1_amended (study : StudyConfiguration) (fatigue : FatigueModel)
    (h2 : 2 ≤ study.t.length)
    (hdyn : ∀ l y, (fatigue.apply_dynamics l y).length = y.length)
    (hx0 : fatigue.initial_guess.length = 3) :
    (∀ t0 x, nextStep study fatigue (study.t.getD 1 0 - study.t.getD 0 0) t0 x =
      classicalRK4Step (fun t y => dynamics study t y fatigue)
        (study.t.getD 1 0 - study.t.getD 0 0) t0 x) ∧
    ∃ cols, rk4 study study.t fatigue = Except.ok ⟨study.t, cols⟩ ∧
      cols.length = study.t.length ∧
      ∀ i < study.t.length, cols.getD i [] =
        iterSteps (fun t y => dynamics study t y fatigue)
          (study.t.getD 1 0 - study.t.getD 0 0) (study.t.take (i + 1))
          fatigue.initial_guess := by
  refine ⟨fun t0 x => nextStep_eq_classical study fatigue _ t0 x, ?_⟩
  obtain ⟨cols, hok, hlen, hval⟩ :=
    rk4Loop_three study fatigue (study.t.getD 1 0 - study.t.getD 0 0) hdyn
      study.t fatigue.initial_guess hx0
  exact ⟨cols, by simp only [rk4, hok], hlen, hval⟩

/-- **C1** (witness for the amended theorem), at the concrete grid and model of the
counterexample. -/
theorem C1_amended_witness :
    2 ≤ Demo.ceStudy.t.length ∧
    ∃ cols, FeasibilityStudies.rk4 Demo.ceStudy Demo.ceStudy.t Demo.oneModel =
        Except.ok ⟨Demo.ceStudy.t, cols⟩ ∧
      cols.length = Demo.ceStudy.t.length ∧
      ∀ i < Demo.ceStudy.t.length, cols.getD i [] =
        FeasibilityStudies.iterSteps
          (fun t y => FeasibilityStudies.dynamics Demo.ceStudy t y Demo.oneModel)
          (Demo.ceStudy.t.getD 1 0 - Demo.ceStudy.t.getD 0 0)
          (Demo.ceStudy.t.take (i + 1)) Demo.oneModel.initial_guess :=
  ⟨by decide,
    (C1_amended Demo.ceStudy Demo.oneModel (by decide)
      (fun l y => by simp [Demo.oneModel]) (by decide)).2⟩

open OptimalControl in
/-- **C2**.  For every study state, data type, key, reference index and compared
solution (data arrays share the `rows × cols` shape recorded in the reference
matrix), the `i`-th entry of the vector returned by `Study._rmse` is
`sqrt((1/N) * Σ_j (ref[i,j] - data[i,j])^2)` with `N` the number of time samples
(columns) of the reference data. -/
theorem C2_rmse (s : Study) (dt : DataType) (key : String) (idx_ref : ℕ)
    (sol : Solution) (hidx : idx_ref < s.solution.length) (i : ℕ)
    (hi : i < ((s.solution.get ⟨idx_ref, hidx⟩).data dt key).rows) :
    Real.sqrt ((rmseMse s dt key idx_ref sol i : ℝ)) =
      Real.sqrt (((1 / (((s.solution.get ⟨idx_ref, hidx⟩).data dt key).cols : ℚ)) *
        ∑ j in Finset.range ((s.solution.get ⟨idx_ref, hidx⟩).data dt key).cols,
          (((s.solution.get ⟨idx_ref, hidx⟩).data dt key).entry i j -
            (sol.data dt key).entry i j) ^ 2 : ℚ) : ℝ) := by
  have hab : rmseMse s dt key idx_ref sol i =
      (1 / (((s.solution.get ⟨idx_ref, hidx⟩).data dt key).cols : ℚ)) *
        ∑ j in Finset.range ((s.solution.get ⟨idx_ref, hidx⟩).data dt key).cols,
          (((s.solution.get ⟨idx_ref, hidx⟩).data dt key).entry i j -
            (sol.data dt key).entry i j) ^ 2 := by
    simp only [rmseMse, List.getD_eq_getElem _ _ hidx, List.get_eq_getElem]
    rw [one_div_mul_eq_div]
  rw [hab]

/-- **C2** (witness), at a concrete two-solution study. -/
theorem C2_rmse_witness :
    Real.sqrt ((OptimalControl.rmseMse DemoOC.ranA OptimalControl.DataType.STATES "q" 0
        DemoOC.solIJ 0 : ℝ)) =
      Real.sqrt (((1 / (((DemoOC.ranA.solution.get ⟨0, by decide⟩).data
          OptimalControl.DataType.STATES "q").cols : ℚ)) *
        ∑ j in Finset.range ((DemoOC.ranA.solution.get ⟨0, by decide⟩).data
            OptimalControl.DataType.STATES "q").cols,
          (((DemoOC.ranA.solution.get ⟨0, by decide⟩).data
              OptimalControl.DataType.STATES "q").entry 0 j -
            (DemoOC.solIJ.data OptimalControl.DataType.STATES "q").entry 0 j) ^ 2 : ℚ) : ℝ) :=
  C2_rmse DemoOC.ranA OptimalControl.DataType.STATES "q" 0 DemoOC.solIJ
    (by decide) 0 (by decide)

open FeasibilityStudies in
/-- **C3**.  After a successful `perform()` (every configured model integrates
successfully, producing the per-model block `B = [r0, r1]`), with exactly two
models both providing `rms_indices`, `print_rmse` writes to
`results/<name>/rmse.txt` the RMSE between the two most recent trajectories
restricted to the paired `rms_indices`; for each selected index pair the reported
value is the square root of the mean of the squared differences over all
integrated time samples: the divisor `n_points` equals the number of time samples
of the compared trajectories (`study_configuration.py` is not under `src/`;
following the spec's sampling-points reading of `n_points`, the hypothesis `hnp`
records `n_points = len(t)`, and both trajectories carry `len(t)` samples). -/
theorem C3_print_rmse (study : StudyConfiguration) (solver : FatigueModel → List Vec)
    (elapsed : ℕ → ℕ → ℚ) (fmtVec : List ℚ → String) (m0 m1 : FatigueModel)
    (ia ib : List ℕ) (B : List Result)
    (hmods : study.fatigue_models = [m0, m1])
    (hia : m0.rms_indices = some ia) (hib : m1.rms_indices = some ib)
    (hB : performModels study solver study.fatigue_models = Except.ok B)
    (hrep : 1 ≤ study.repeats)
    (hsol : ∀ f, (solver f).length = study.t.length)
    (hnp : study.n_points = study.t.length) :
    ∃ s r0 r1,
      perform study solver elapsed initState = Except.ok s ∧
      B = [r0, r1] ∧
      r0.y.length = study.t.length ∧ r1.y.length = study.t.length ∧
      print_rmse fmtVec study s =
        Except.ok ("results/" ++ study.name ++ "/rmse.txt",
          "The RMSE between " ++ m0.type_name ++ " and " ++ m1.type_name ++ " is " ++
            fmtVec (printRmseMseList study r0 r1 ia ib)) ∧
      ∀ k < (ia.zip ib).length,
        Real.sqrt (((printRmseMseList study r0 r1 ia ib).getD k 0 : ℝ)) =
          Real.sqrt ((((r0.y.zip r1.y).map (fun c =>
              (c.1.getD ((ia.zip ib).getD k (0, 0)).1 0 -
                c.2.getD ((ia.zip ib).getD k (0, 0)).2 0) ^ 2)).sum /
            ((r0.y.zip r1.y).length : ℚ) : ℚ) : ℝ) := by
  obtain ⟨hBlen, hBval⟩ := performModels_ok study solver hB
  rw [hmods] at hBlen
  obtain ⟨r0, r1, rfl⟩ : ∃ r0 r1, B = [r0, r1] := by
    rcases B with _ | ⟨r0, _ | ⟨r1, _ | _⟩⟩ <;> simp at hBlen
    exact ⟨r0, r1, rfl⟩
  rw [hmods] at hBval
  have h0 : integrateOne study solver m0 = Except.ok r0 := by
    simpa using hBval 0 (by simp)
  have h1 : integrateOne study solver m1 = Except.ok r1 := by
    simpa using hBval 1 (by simp)
  obtain ⟨ht0, hy0⟩ := integrateOne_shape study solver m0 hsol h0
  obtain ⟨ht1, hy1⟩ := integrateOne_shape study solver m1 hsol h1
  have hzlen : (r0.y.zip r1.y).length = study.t.length := by
    rw [List.length_zip, hy0, hy1, min_self]
  refine ⟨⟨true, [] ++ List.replicate study.repeats [r0, r1],
      [] ++ (List.range study.repeats).map (fun j =>
        timesRow elapsed (([] : List (List Result)).length + j)
          study.fatigue_models.length)⟩, r0, r1,
    perform_ok study solver elapsed hB initState, rfl, hy0, hy1, ?_, ?_⟩
  · have hlast : (([] ++ List.replicate study.repeats [r0, r1] :
        List (List Result))).getLast? = some [r0, r1] := by
      rw [List.nil_append]
      exact getLast?_replicate_of_pos study.repeats hrep _
    simp only [print_rmse, hlast, hmods, hia, hib]
    simp [List.filter_cons, List.filter_nil, hia, hib]
  · intro k hk
    have hentry : (printRmseMseList study r0 r1 ia ib).getD k 0 =
        (((r0.y.zip r1.y).map (fun c =>
            (c.1.getD ((ia.zip ib).getD k (0, 0)).1 0 -
              c.2.getD ((ia.zip ib).getD k (0, 0)).2 0) ^ 2)).sum /
          ((r0.y.zip r1.y).length : ℚ) : ℚ) := by
      unfold printRmseMseList
      rw [getD_map_of_lt _ _ _ (0, 0) k hk, hnp, ← hzlen]
    rw [hentry]

open FeasibilityStudies in
/-- **C3** (witness), at the concrete two-model zero-dynamics study. -/
theorem C3_print_rmse_witness :
    ∃ s r0 r1,
      perform Demo.studyA Demo.solver3 Demo.elapsed0 initState = Except.ok s ∧
      Demo.blockA = [r0, r1] ∧
      r0.y.length = Demo.studyA.t.length ∧ r1.y.length = Demo.studyA.t.length ∧
      print_rmse Demo.fmtVec0 Demo.studyA s =
        Except.ok ("results/" ++ Demo.studyA.name ++ "/rmse.txt",
          "The RMSE between " ++ Demo.zeroModelA.type_name ++ " and " ++
            Demo.zeroModelB.type_name ++ " is " ++
            Demo.fmtVec0 (printRmseMseList Demo.studyA r0 r1 [0] [0])) ∧
      ∀ k < (([0] : List ℕ).zip ([0] : List ℕ)).length,
        Real.sqrt (((printRmseMseList Demo.studyA r0 r1 [0] [0]).getD k 0 : ℝ)) =
          Real.sqrt ((((r0.y.zip r1.y).map (fun c =>
              (c.1.getD ((([0] : List ℕ).zip ([0] : List ℕ)).getD k (0, 0)).1 0 -
                c.2.getD ((([0] : List ℕ).zip ([0] : List ℕ)).getD k (0, 0)).2 0) ^ 2)).sum /
            ((r0.y.zip r1.y).length : ℚ) : ℚ) : ℝ) :=
  C3_print_rmse Demo.studyA Demo.solver3 Demo.elapsed0 Demo.fmtVec0
    Demo.zeroModelA Demo.zeroModelB [0] [0] Demo.blockA rfl rfl rfl
    (by simp [performModels, integrateOne, rk4, rk4Loop, nextStep, dynamics,
      assignColumn, vadd, smul, Demo.studyA, Demo.zeroModelA, Demo.zeroModelB,
      Demo.blockA])
    (by decide) (fun f => rfl) rfl

/-- **C4** (counterexample).  The claim states that `Study.print_results` raises a
`RuntimeError` when invoked before `run()`.  It does not: the source has no
`_has_run` guard in `print_results`, and on a fresh study it returns normally,
printing only the three headers (the zips over the empty `solution` are empty). -/
theorem C4_counterexample :
    OptimalControl.print_results (OptimalControl.initStudy "demo" DemoOC.cfgA) =
      Except.ok
        "Number of iterations\nTotal time to optimize\nMean time per iteration to optimize\n" ∧
    ∀ e, OptimalControl.print_results (OptimalControl.initStudy "demo" DemoOC.cfgA) ≠
      Except.error e := by
  exact ⟨rfl, fun e h => by simp [OptimalControl.print_results] at h⟩

open FeasibilityStudies OptimalControl in
/-- **C4** (amended).  Every result-reading operation except `Study.print_results`
raises a `RuntimeError` immediately when invoked before `run()`/`perform()`:
`Study.generate_latex_table` and `Study.prepare_plot_data`, and
`FatigueIntegrator.results`, `print_integration_time`, `print_rmse`,
`print_custom_analyses`.  `Study.print_results` has no such guard and never
raises.  After `run()` (which sets `_has_run`) and after a successful `perform()`
(whose returned state has `_has_run` set) these must-call-`run()` guards never
fire. -/
theorem C4_amended :
    (∀ s : Study, ∃ out, print_results s = Except.ok out) ∧
    (∀ (sciCell : List ℚ → String) (s : Study), s.has_run = false →
      generate_latex_table sciCell s =
        Except.error (.runtimeError "run() must be called before generating the latex table")) ∧
    (∀ (s : Study) (dt : DataType) (key : String), s.has_run = false →
      prepare_plot_data s dt key =
        Except.error (.runtimeError "run() must be called before plotting the results")) ∧
    (∀ s : IntegratorState, s.has_run = false →
      resultsProp s =
        Except.error (.runtimeError "run() must be called before getting the results")) ∧
    (∀ (study : FeasibilityStudies.StudyConfiguration) (s : IntegratorState),
      s.has_run = false →
      print_integration_time study s =
        Except.error (.runtimeError "run() must be called before printing the results")) ∧
    (∀ (fmtVec : List ℚ → String) (study : FeasibilityStudies.StudyConfiguration)
      (s : IntegratorState), s.has_run = false →
      print_rmse fmtVec study s =
        Except.error (.runtimeError "run() must be called before printing the results")) ∧
    (∀ (study : FeasibilityStudies.StudyConfiguration) (s : IntegratorState),
      s.has_run = false →
      print_custom_analyses study s =
        Except.error (.runtimeError "run() must be called before printing the results")) ∧
    (∀ s : Study, (run s).has_run = true) ∧
    (∀ (study : FeasibilityStudies.StudyConfiguration) (solver : FatigueModel → List Vec)
      (elapsed : ℕ → ℕ → ℚ) (s s1 : IntegratorState),
      perform study solver elapsed s = Except.ok s1 → s1.has_run = true) ∧
    (∀ (sciCell : List ℚ → String) (s : Study), s.has_run = true →
      generate_latex_table sciCell s ≠
        Except.error (.runtimeError "run() must be called before generating the latex table")) ∧
    (∀ (s : Study) (dt : DataType) (key : String), s.has_run = true →
      prepare_plot_data s dt key ≠
        Except.error (.runtimeError "run() must be called before plotting the results")) ∧
    (∀ s : IntegratorState, s.has_run = true → resultsProp s = Except.ok s.results) ∧
    (∀ (study : FeasibilityStudies.StudyConfiguration) (s : IntegratorState),
      s.has_run = true →
      print_integration_time study s ≠
        Except.error (.runtimeError "run() must be called before printing the results")) ∧
    (∀ (fmtVec : List ℚ → String) (study : FeasibilityStudies.StudyConfiguration)
      (s : IntegratorState), s.has_run = true →
      print_rmse fmtVec study s ≠
        Except.error (.runtimeError "run() must be called before printing the results")) ∧
    (∀ (study : FeasibilityStudies.StudyConfiguration) (s : IntegratorState),
      s.has_run = true →
      print_custom_analyses study s ≠
        Except.error (.runtimeError "run() must be called before printing the results")) := by
  refine ⟨fun s => ⟨_, rfl⟩, ?_, ?_, ?_, ?_, ?_, ?_, fun s => rfl, ?_, ?_, ?_, ?_, ?_, ?_, ?_⟩
  · intro sciCell s h
    simp [generate_latex_table, h]
  · intro s dt key h
    simp [prepare_plot_data, h]
  · intro s h
    simp [resultsProp, h]
  · intro study s h
    simp [print_integration_time, h]
  · intro fmtVec study s h
    simp [print_rmse, h]
  · intro study s h
    simp [print_custom_analyses, h]
  · intro study solver elapsed s s1 hok
    unfold perform at hok
    split at hok
    · cases hok
    · cases hok
      rfl
  · intro sciCell s h
    simp [generate_latex_table, h]
  · intro s dt key h
    unfold prepare_plot_data
    rw [h]
    simp only [not_true, if_false]
    split
    · intro hcon
      simp at hcon
    · split
      · intro hcon
        simp at hcon
      · intro hcon
        simp at hcon
  · intro s h
    simp [resultsProp, h]
  · intro study s h
    simp [print_integration_time, h]
  · intro fmtVec study s h
    unfold print_rmse
    rw [h]
    simp only [not_true, if_false]
    split
    · intro hcon
      simp at hcon
    · split
      · intro hcon
        simp at hcon
      · split
        · intro hcon
          simp at hcon
        · split
          · intro hcon
            simp at hcon
          · intro hcon
            simp at hcon
  · intro study s h
    unfold print_custom_analyses
    rw [h]
    simp only [not_true, if_false]
    split
    · intro hcon
      simp at hcon
    · intro hcon
      simp at hcon

/-- **C4** (witness): the before-`run()` guards at concrete fresh states, and the
guard-free success of a reader after `run()`. -/
theorem C4_amended_witness :
    OptimalControl.generate_latex_table DemoOC.sci0 DemoOC.freshA =
      Except.error (.runtimeError "run() must be called before generating the latex table") ∧
    FeasibilityStudies.resultsProp FeasibilityStudies.initState =
      Except.error (.runtimeError "run() must be called before getting the results") ∧
    FeasibilityStudies.resultsProp Demo.ranState = Except.ok Demo.ranState.results :=
  ⟨C4_amended.2.1 DemoOC.sci0 DemoOC.freshA rfl,
    C4_amended.2.2.2.1 FeasibilityStudies.initState rfl,
    C4_amended.2.2.2.2.2.2.2.2.2.2.2.1 Demo.ranState rfl⟩

open FeasibilityStudies in
/-- **C5**.  With `_has_run` set, `print_rmse` enforces its preconditions before
producing any output: when the study does not configure exactly two fatigue models
it raises `RuntimeError`, and when (with two models) the models do not both
provide `rms_indices` it raises `ValueError`.  In the embedding an error return
carries no `(path, content)` output — nothing is written — and `print_rmse` never
mutates the integrator state (it only reads it). -/
theorem C5_guards (fmtVec : List ℚ → String) (study : StudyConfiguration)
    (s : IntegratorState) (h : s.has_run = true) :
    (study.fatigue_models.length ≠ 2 →
      print_rmse fmtVec study s =
        Except.error (.runtimeError "rmse must have exactly 2 models to be called")) ∧
    (study.fatigue_models.length = 2 →
      (study.fatigue_models.filter (fun m => m.rms_indices.isSome)).length ≠ 2 →
      print_rmse fmtVec study s =
        Except.error
          (.valueError "rms_indices were not all provided in the study configuration")) := by
  constructor
  · intro hne
    simp [print_rmse, h, hne]
  · intro hlen hidx
    simp [print_rmse, h, hlen, hidx]

open FeasibilityStudies in
/-- **C5** (witness): the model-count guard at a one-model study, and the
`rms_indices` guard at a two-model study without indices. -/
theorem C5_guards_witness :
    print_rmse Demo.fmtVec0 Demo.studyOne Demo.ranState =
      Except.error (.runtimeError "rmse must have exactly 2 models to be called") ∧
    print_rmse Demo.fmtVec0 Demo.studyNoIdx Demo.ranState =
      Except.error
        (.valueError "rms_indices were not all provided in the study configuration") :=
  ⟨(C5_guards Demo.fmtVec0 Demo.studyOne Demo.ranState rfl).1 (by decide),
    (C5_guards Demo.fmtVec0 Demo.studyNoIdx Demo.ranState rfl).2 (by decide)
      (by simp [Demo.studyNoIdx, Demo.zeroModelNoIdx])⟩

open FeasibilityStudies OptimalControl in
/-- **C6**.  Execution accumulates results strictly sequentially.  A single
successful `perform()` from the fresh state produces exactly `study.repeat` inner
lists in both `_results` and `_performing_time`; inner list `r` holds exactly one
entry per configured fatigue model, in configuration order, and entry `[r][m]` is
the integration output of model `m`; `_has_run` is set.  A single `run()` on a
fresh study appends exactly one `Solution` per condition, in condition order, and
sets `_has_run`. -/
theorem C6_sequential :
    (∀ (study : FeasibilityStudies.StudyConfiguration)
      (solver : FatigueModel → List Vec) (elapsed : ℕ → ℕ → ℚ) (B : List Result),
      performModels study solver study.fatigue_models = Except.ok B →
      ∃ s, perform study solver elapsed initState = Except.ok s ∧
        s.has_run = true ∧
        s.results.length = study.repeats ∧
        s.performing_time.length = study.repeats ∧
        (∀ r < study.repeats,
          (s.results.getD r []).length = study.fatigue_models.length ∧
          (s.performing_time.getD r []).length = study.fatigue_models.length ∧
          ∀ m < study.fatigue_models.length,
            integrateOne study solver (study.fatigue_models.getD m default) =
              Except.ok ((s.results.getD r []).getD m default))) ∧
    (∀ (name : String) (cfg : OptimalControl.StudyConfiguration),
      (run (initStudy name cfg)).has_run = true ∧
      (run (initStudy name cfg)).solution.length = cfg.studies.length ∧
      ∀ i < cfg.studies.length,
        (run (initStudy name cfg)).solution.getD i default =
          (cfg.studies.getD i default).perform) := by
  constructor
  · intro study solver elapsed B hB
    obtain ⟨hBlen, hBval⟩ := performModels_ok study solver hB
    have hperf := perform_ok study solver elapsed hB initState
    simp only [initState, List.nil_append, List.length_nil, zero_add] at hperf
    refine ⟨_, hperf, rfl, by simp, by simp, ?_⟩
    intro r hr
    have hres : (List.replicate study.repeats B).getD r [] = B :=
      getD_replicate_of_lt study.repeats r hr B []
    have hrg : (List.range study.repeats).getD r 0 = r := by
      rw [List.getD_eq_getElem _ _ (by simpa using hr)]
      simp
    have htimes : ((List.range study.repeats).map (fun j =>
        timesRow elapsed j study.fatigue_models.length)).getD r [] =
        timesRow elapsed ((List.range study.repeats).getD r 0)
          study.fatigue_models.length :=
      getD_map_of_lt _ _ [] 0 r (by simpa using hr)
    refine ⟨?_, ?_, ?_⟩
    · show ((List.replicate study.repeats B).getD r []).length =
        study.fatigue_models.length
      rw [hres]
      exact hBlen
    · show (((List.range study.repeats).map (fun j =>
        timesRow elapsed j study.fatigue_models.length)).getD r []).length =
          study.fatigue_models.length
      rw [htimes, hrg]
      simp [timesRow]
    · intro m hm
      show integrateOne study solver (study.fatigue_models.getD m default) =
        Except.ok (((List.replicate study.repeats B).getD r []).getD m default)
      rw [hres]
      exact hBval m hm
  · intro name cfg
    refine ⟨rfl, by simp [run, initStudy], ?_⟩
    intro i hi
    simp only [run, initStudy, List.nil_append]
    exact getD_map_of_lt _ cfg.studies default default i hi

open FeasibilityStudies in
/-- **C6** (witness): the sequential-accumulation shape at a concrete one-model
two-repeat study and a concrete one-condition optimal-control study. -/
theorem C6_sequential_witness :
    (∃ s, perform Demo.studyB Demo.solver3 Demo.elapsed0 initState = Except.ok s ∧
      s.has_run = true ∧
      s.results.length = Demo.studyB.repeats ∧
      s.performing_time.length = Demo.studyB.repeats ∧
      (∀ r < Demo.studyB.repeats,
        (s.results.getD r []).length = Demo.studyB.fatigue_models.length ∧
        (s.performing_time.getD r []).length = Demo.studyB.fatigue_models.length ∧
        ∀ m < Demo.studyB.fatigue_models.length,
          integrateOne Demo.studyB Demo.solver3 (Demo.studyB.fatigue_models.getD m default) =
            Except.ok ((s.results.getD r []).getD m default))) ∧
    ((OptimalControl.run (OptimalControl.initStudy "demo" DemoOC.cfgA)).has_run = true ∧
      (OptimalControl.run (OptimalControl.initStudy "demo" DemoOC.cfgA)).solution.length =
        DemoOC.cfgA.studies.length ∧
      ∀ i < DemoOC.cfgA.studies.length,
        (OptimalControl.run (OptimalControl.initStudy "demo" DemoOC.cfgA)).solution.getD
            i default =
          (DemoOC.cfgA.studies.getD i default).perform) :=
  ⟨C6_sequential.1 Demo.studyB Demo.solver3 Demo.elapsed0 Demo.blockB
      (by simp [performModels, integrateOne, rk4, rk4Loop, nextStep, dynamics,
        assignColumn, vadd, smul, Demo.studyB, Demo.zeroModelA, Demo.blockB]),
    C6_sequential.2 "demo" DemoOC.cfgA⟩

open FeasibilityStudies OptimalControl in
/-- **C8**.  `Study.run()` and `FatigueIntegrator.perform()` accumulate across
calls rather than resetting: every call to `run()` appends one further `Solution`
per condition (a second call on a once-run fresh study doubles the length of
`solution`), and a second successful `perform()` appends `study.repeat` further
repeat blocks to `_results` and `_performing_time`; with at least one condition
(resp. one repeat) neither operation is idempotent. -/
theorem C8_accumulate :
    (∀ s : Study, (run s).solution =
      s.solution ++ s.conditions.studies.map (fun c => c.perform)) ∧
    (∀ (name : String) (cfg : OptimalControl.StudyConfiguration),
      (run (initStudy name cfg)).solution.length = cfg.studies.length ∧
      (run (run (initStudy name cfg))).solution.length = 2 * cfg.studies.length ∧
      (cfg.studies ≠ [] → run (run (initStudy name cfg)) ≠ run (initStudy name cfg))) ∧
    (∀ (study : FeasibilityStudies.StudyConfiguration)
      (solver : FatigueModel → List Vec) (elapsed : ℕ → ℕ → ℚ)
      (B : List Result) (s1 : IntegratorState),
      performModels study solver study.fatigue_models = Except.ok B →
      perform study solver elapsed initState = Except.ok s1 →
      ∃ s2, perform study solver elapsed s1 = Except.ok s2 ∧
        s1.results.length = study.repeats ∧
        s2.results.length = 2 * study.repeats ∧
        s2.performing_time.length = 2 * study.repeats ∧
        s2.results = s1.results ++ List.replicate study.repeats B ∧
        (1 ≤ study.repeats → s2 ≠ s1)) := by
  refine ⟨fun s => rfl, ?_, ?_⟩
  · intro name cfg
    refine ⟨by simp [run, initStudy], by simp [run, initStudy]; ring, ?_⟩
    intro hne hcon
    have hlen := congrArg (fun st : Study => st.solution.length) hcon
    simp only [run, initStudy, List.nil_append, List.length_append,
      List.length_map] at hlen
    have : cfg.studies.length ≠ 0 := fun h0 => hne (List.length_eq_zero.mp h0)
    omega
  · intro study solver elapsed B s1 hB hperf1
    have h1 := perform_ok study solver elapsed hB initState
    rw [hperf1] at h1
    have hs1 : s1 = ⟨true, [] ++ List.replicate study.repeats B,
        [] ++ (List.range study.repeats).map (fun j =>
          timesRow elapsed (([] : List (List Result)).length + j)
            study.fatigue_models.length)⟩ := by
      cases h1
      rfl
    have h2 := perform_ok study solver elapsed hB s1
    refine ⟨_, h2, ?_, ?_, ?_, rfl, ?_⟩
    · rw [hs1]
      simp
    · rw [hs1]
      simp
      ring
    · rw [hs1]
      simp
      ring
    · intro hrep hcon
      have hlen := congrArg (fun st : IntegratorState => st.results.length) hcon
      simp only [List.length_append, List.length_replicate] at hlen
      omega

open FeasibilityStudies in
/-- **C8** (witness), at a one-condition study and a two-repeat integrator. -/
theorem C8_accumulate_witness :
    (OptimalControl.run (OptimalControl.run (OptimalControl.initStudy "demo"
        DemoOC.cfgA))).solution.length = 2 * DemoOC.cfgA.studies.length ∧
    ∃ s2, perform Demo.studyB Demo.solver3 Demo.elapsed0
        ⟨true, List.replicate Demo.studyB.repeats Demo.blockB,
          (List.range Demo.studyB.repeats).map (fun j =>
            timesRow Demo.elapsed0 j Demo.studyB.fatigue_models.length)⟩ =
        Except.ok s2 ∧
      s2.results.length = 2 * Demo.studyB.repeats := by
  have hB : performModels Demo.studyB Demo.solver3 Demo.studyB.fatigue_models =
      Except.ok Demo.blockB := by
    simp [performModels, integrateOne, rk4, rk4Loop, nextStep, dynamics,
      assignColumn, vadd, smul, Demo.studyB, Demo.zeroModelA, Demo.blockB]
  have hperf1 : perform Demo.studyB Demo.solver3 Demo.elapsed0 initState =
      Except.ok ⟨true, List.replicate Demo.studyB.repeats Demo.blockB,
        (List.range Demo.studyB.repeats).map (fun j =>
          timesRow Demo.elapsed0 j Demo.studyB.fatigue_models.length)⟩ := by
    have := perform_ok Demo.studyB Demo.solver3 Demo.elapsed0 hB initState
    simpa [initState] using this
  obtain ⟨s2, h2, _, hlen2, _, _, _⟩ :=
    C8_accumulate.2.2 Demo.studyB Demo.solver3 Demo.elapsed0 Demo.blockB _ hB hperf1
  exact ⟨(C8_accumulate.2.1 "demo" DemoOC.cfgA).2.1, s2, h2, hlen2⟩

/-- **C10** (counterexample).  The claim states that `rk4` fails for any model
whose state dimension differs from 3.  A 1-dimensional model does not fail: numpy
broadcasts the length-1 step value across the 3-row column (and from the second
step on the read-back state is 3-dimensional), so the integration succeeds. -/
theorem C10_counterexample :
    FeasibilityStudies.rk4 Demo.c10Study Demo.c10Study.t Demo.dim1Model =
      Except.ok ⟨[0, 1], [[0, 0, 0], [0, 0, 0]]⟩ ∧
    Demo.dim1Model.initial_guess.length = 1 ∧ (1 : ℕ) ≠ 3 := by
  refine ⟨?_, by decide, by decide⟩
  norm_num [FeasibilityStudies.rk4, FeasibilityStudies.rk4Loop,
    FeasibilityStudies.nextStep, FeasibilityStudies.dynamics,
    FeasibilityStudies.assignColumn, FeasibilityStudies.vadd,
    FeasibilityStudies.smul, Demo.c10Study, Demo.dim1Model, List.replicate]

open FeasibilityStudies in
/-- **C10** (amended).  `rk4` always produces a 3-by-`len(t_eval)` trajectory:
every successful result has one length-3 column per evaluation time, whatever the
model.  For a dimension-preserving model the per-step column assignment raises the
numpy broadcast `ValueError` whenever the state dimension is neither 3 nor 1 (the
first assignment already fails); a length-1 step value is instead broadcast across
the three rows (so 1-dimensional models are not rejected).  `rk45` passes the
initial guess unchanged to the external solver and carries no such dimensional
restriction. -/
theorem C10_amended :
    (∀ (study : StudyConfiguration) (t_eval : List ℚ) (fatigue : FatigueModel)
      (r : Result), rk4 study t_eval fatigue = Except.ok r →
      r.t = t_eval ∧ r.y.length = t_eval.length ∧ ∀ c ∈ r.y, c.length = 3) ∧
    (∀ (study : StudyConfiguration) (fatigue : FatigueModel) (t : ℚ) (ts : List ℚ),
      (∀ l y, (fatigue.apply_dynamics l y).length = y.length) →
      fatigue.initial_guess.length ≠ 3 → fatigue.initial_guess.length ≠ 1 →
      rk4 study (t :: ts) fatigue =
        Except.error (.valueError "could not broadcast input array")) ∧
    (∀ (rows : ℕ) (v : Vec), v.length = 1 →
      assignColumn rows v = Except.ok (List.replicate rows v.headI)) ∧
    (∀ (solver : FatigueModel → List Vec) (t_eval : List ℚ) (fatigue : FatigueModel),
      rk45 solver t_eval fatigue = ⟨t_eval, solver fatigue⟩) := by
  refine ⟨?_, ?_, ?_, fun solver t_eval fatigue => rfl⟩
  · intro study t_eval fatigue r hok
    simp only [rk4] at hok
    split at hok
    · cases hok
    · rename_i cols hloop
      cases hok
      obtain ⟨hlen, hall⟩ := rk4Loop_ok_shape study fatigue _ hloop
      exact ⟨rfl, hlen, hall⟩
  · intro study fatigue t ts hdyn h3 h1
    simp only [rk4,
      rk4Loop_broadcast_error study fatigue _ t ts fatigue.initial_guess hdyn h3 h1]
  · intro rows v hv
    rcases v with _ | ⟨a, _ | _⟩ <;> simp at hv
    by_cases hrows : rows = 1
    · subst hrows
      simp [assignColumn]
    · have : ¬ ([a] : Vec).length = rows := by simpa using fun h => hrows h.symm
      simp [assignColumn, this]
      exact fun h => absurd h.symm hrows

open FeasibilityStudies in
/-- **C10** (witness for the amended theorem): a 2-dimensional model fails with
the broadcast error on the very first column. -/
theorem C10_amended_witness :
    rk4 Demo.c10Study (0 :: [1]) Demo.dim2Model =
      Except.error (.valueError "could not broadcast input array") :=
  C10_amended.2.1 Demo.c10Study Demo.dim2Model 0 [1]
    (fun l y => by simp [Demo.dim2Model]) (by decide) (by decide)

open OptimalControl in
/-- **C9**.  `Study._rmse` applied with the same solution as reference (the
`idx_ref`-th stored solution) and compared solution returns the all-zero vector;
consequently the RMSE cell of a table row whose `rmse_index` points at its own
solution always renders as `"---"`, and the full row carries `"---"` in the RMSE
column. -/
theorem C9_self_rmse (s : Study) (dt : DataType) (key : String) (i : ℕ)
    (hi : i < s.solution.length) (sciCell : List ℚ → String) (study : OcpStudy)
    (j : ℕ) :
    Real.sqrt ((rmseMse s dt key i (s.solution.get ⟨i, hi⟩) j : ℝ)) = 0 ∧
    rmseCell sciCell s i (s.solution.get ⟨i, hi⟩) = "---" ∧
    latexRow sciCell s study (s.solution.get ⟨i, hi⟩) i =
      "   " ++ starredName study (s.solution.get ⟨i, hi⟩) ++
        " & " ++ toString (n_var study) ++ "/" ++ toString (n_constraints study) ++
        " & " ++ toString (s.solution.get ⟨i, hi⟩).iterations ++
        " & " ++ fmt3f (s.solution.get ⟨i, hi⟩).real_time_to_optimize ++
        " & " ++ fmt3f ((s.solution.get ⟨i, hi⟩).real_time_to_optimize /
          ((s.solution.get ⟨i, hi⟩).iterations : ℚ)) ++
        " & " ++ "---" ++ " \\\\\n" := by
  have hgd : s.solution.getD i default = s.solution.get ⟨i, hi⟩ := by
    rw [List.getD_eq_getElem _ _ hi]
    simp
  have hcell : rmseCell sciCell s i (s.solution.get ⟨i, hi⟩) = "---" := by
    have hall : ∀ q ∈ (List.range
        ((s.solution.getD i default).data DataType.STATES "q").rows).map
        (rmseMse s DataType.STATES "q" i (s.solution.get ⟨i, hi⟩)), q = 0 := by
      intro q hq
      obtain ⟨k, _, rfl⟩ := List.mem_map.mp hq
      exact rmseMse_self s DataType.STATES "q" i _ hgd k
    simp only [rmseCell, if_pos hall]
  refine ⟨?_, hcell, ?_⟩
  · rw [rmseMse_self s dt key i _ hgd j]
    simp
  · unfold latexRow
    rw [hcell]

open OptimalControl in
/-- **C9** (witness): the self-referencing RMSE cell at the concrete one-condition
study after `run()`. -/
theorem C9_self_rmse_witness :
    rmseCell DemoOC.sci0 DemoOC.ranA 0 (DemoOC.ranA.solution.get ⟨0, by decide⟩) =
      "---" :=
  (C9_self_rmse DemoOC.ranA DataType.STATES "q" 0 (by decide) DemoOC.sci0
    DemoOC.ocpA 0).2.1

open OptimalControl in
/-- **C7**.  After `run()`, `generate_latex_table` writes to
`results/<name>/results.tex` a document made of the fixed header, exactly one data
row per study condition in condition order (row `i` renders condition `i` with its
solution and its `rmse_index`), and a footer that contains the tablenotes block
explaining `*` exactly when some condition reached its solver's `max_iter`; a
condition's name is suffixed with `*` exactly when its iteration count equals
`max_iter`, and a row's RMSE cell renders `"---"` exactly when the summed RMSE for
that row is 0. -/
theorem C7_latex_table (name : String) (cfg : StudyConfiguration)
    (sciCell : List ℚ → String) (s : Study)
    (triples : List (OcpStudy × Solution × ℕ))
    (hs : s = run (initStudy name cfg))
    (htr : triples = zip3 cfg.studies s.solution cfg.rmse_index)
    (hlen : cfg.rmse_index.length = cfg.studies.length)
    (hfmt : ∀ v, sciCell v ≠ "---") :
    generate_latex_table sciCell s =
      Except.ok ("results/" ++ name ++ "/results.tex",
        latexHeader ++ String.join (tableRows sciCell s triples) ++
          latexFooter (allHasConverged triples)) ∧
    (tableRows sciCell s triples).length = cfg.studies.length ∧
    (∀ i < cfg.studies.length,
      (tableRows sciCell s triples).getD i "" =
        latexRow sciCell s (cfg.studies.getD i default)
          (cfg.studies.getD i default).perform (cfg.rmse_index.getD i 0)) ∧
    (∀ (study : OcpStudy) (sol : Solution),
      starredName study sol = study.name ++ "*" ↔
        sol.iterations = study.solver_max_iter) ∧
    (∀ (study : OcpStudy) (sol : Solution),
      starredName study sol = study.name ↔
        sol.iterations ≠ study.solver_max_iter) ∧
    (allHasConverged triples = false ↔
      ∃ i < cfg.studies.length,
        (cfg.studies.getD i default).perform.iterations =
          (cfg.studies.getD i default).solver_max_iter) ∧
    (allHasConverged triples = false →
      latexFooter (allHasConverged triples) =
        "   \\hline\n" ++ "  \\end\x7btabular\x7d\n" ++ tablenotesBlock ++
          " \\end\x7bthreeparttable\x7d\n" ++ "\\end\x7btable\x7d\n\n" ++
          "\\end\x7bdocument\x7d\n") ∧
    (allHasConverged triples = true →
      latexFooter (allHasConverged triples) =
        "   \\hline\n" ++ "  \\end\x7btabular\x7d\n" ++
          " \\end\x7bthreeparttable\x7d\n" ++ "\\end\x7btable\x7d\n\n" ++
          "\\end\x7bdocument\x7d\n") ∧
    (∀ (ri : ℕ) (sol : Solution),
      rmseCell sciCell s ri sol = "---" ↔
        (∑ i in Finset.range
            ((s.solution.getD ri default).data DataType.STATES "q").rows,
          Real.sqrt ((rmseMse s DataType.STATES "q" ri sol i : ℝ))) = 0) := by
  subst hs
  subst htr
  have hsol : (run (initStudy name cfg)).solution =
      cfg.studies.map (fun c => c.perform) := by
    simp [run, initStudy]
  have hslen : (run (initStudy name cfg)).solution.length = cfg.studies.length := by
    rw [hsol, List.length_map]
  have hlen3 : (zip3 cfg.studies (run (initStudy name cfg)).solution
      cfg.rmse_index).length = cfg.studies.length := by
    rw [zip3_length, hslen, hlen]
    simp
  have hsolget : ∀ i < cfg.studies.length,
      (run (initStudy name cfg)).solution.getD i default =
        (cfg.studies.getD i default).perform := by
    intro i hi
    rw [hsol]
    exact getD_map_of_lt _ cfg.studies default default i hi
  refine ⟨?_, ?_, ?_, starredName_eq_append_iff, starredName_eq_name_iff, ?_,
    fun hb => by rw [hb]; rfl, fun hb => by rw [hb]; rfl, ?_⟩
  · simp [generate_latex_table, run, initStudy]
  · rw [tableRows, List.length_map, hlen3]
  · intro i hi
    rw [tableRows, getD_map_of_lt _ _ "" (default, default, 0) i (by rw [hlen3]; exact hi),
      zip3_getD default default 0 cfg.studies _ cfg.rmse_index i
        (by rw [hlen3]; exact hi),
      hsolget i hi]
  · rw [allHasConverged_false_iff]
    constructor
    · rintro ⟨tr, htr2, heq⟩
      rcases List.mem_iff_get.mp htr2 with ⟨⟨k, hk⟩, rfl⟩
      have hgd : (zip3 cfg.studies (run (initStudy name cfg)).solution
          cfg.rmse_index).getD k (default, default, 0) =
          (zip3 cfg.studies (run (initStudy name cfg)).solution
            cfg.rmse_index).get ⟨k, hk⟩ := by
        rw [List.getD_eq_getElem _ _ hk]
        simp
      have hk' : k < cfg.studies.length := by rw [← hlen3]; exact hk
      rw [← hgd, zip3_getD default default 0 cfg.studies _ cfg.rmse_index k hk,
        hsolget k hk'] at heq
      exact ⟨k, hk', heq⟩
    · rintro ⟨k, hk', heq⟩
      have hk : k < (zip3 cfg.studies (run (initStudy name cfg)).solution
          cfg.rmse_index).length := by rw [hlen3]; exact hk'
      refine ⟨(zip3 cfg.studies (run (initStudy name cfg)).solution
          cfg.rmse_index).getD k (default, default, 0), ?_, ?_⟩
      · rw [List.getD_eq_getElem _ _ hk]
        exact List.getElem_mem hk
      · rw [zip3_getD default default 0 cfg.studies _ cfg.rmse_index k hk,
          hsolget k hk']
        exact heq
  · intro ri sol
    exact rmseCell_eq_dash_iff sciCell (run (initStudy name cfg)) ri sol hfmt

open OptimalControl in
/-- **C7** (witness), at the concrete one-condition study. -/
theorem C7_latex_table_witness :
    generate_latex_table DemoOC.sci0 DemoOC.ranA =
      Except.ok ("results/" ++ "demo" ++ "/results.tex",
        latexHeader ++ String.join (tableRows DemoOC.sci0 DemoOC.ranA
          (zip3 DemoOC.cfgA.studies DemoOC.ranA.solution DemoOC.cfgA.rmse_index)) ++
          latexFooter (allHasConverged
            (zip3 DemoOC.cfgA.studies DemoOC.ranA.solution DemoOC.cfgA.rmse_index))) :=
  (C7_latex_table "demo" DemoOC.cfgA DemoOC.sci0 DemoOC.ranA
    (zip3 DemoOC.cfgA.studies DemoOC.ranA.solution DemoOC.cfgA.rmse_index)
    rfl rfl rfl (fun v => by simp [DemoOC.sci0])).1

end DumbbellLifting

